import Mathlib

/-!
Shallow embedding of the heartbeat pacemaker (`utils/heart/heart.go`) and the
Discord gateway session controller (`gateway/gateway.go`) of the arikawa
repository, together with theorems settling the spec's claims about them.

Go `int64` values are modelled as `Int` with explicit two's-complement
wrapping where the source performs 64-bit arithmetic.  Fallible Go calls are
modelled with `Option`/`Except`; injected collaborators (the JSON driver, the
websocket transport, the REST client) are modelled as function parameters, as
the spec treats them as opaque collaborators.
-/

namespace Arikawa

/-- Error values flowing through both packages.  `wrapped msg e` models
`github.com/pkg/errors.Wrap(e, msg)` applied to a non-nil error; sentinel
errors (`ErrDead`, `ErrInvalidSession`, `ErrWSMaxTries`, the synthetic
empty-frame error) get their own constructors, and families of opaque
transport / marshal / handler errors are indexed by a natural number. -/
inductive GError where
  | errDead
  | invalidSession
  | maxTries
  | emptyFrame
  | transport (n : Nat)
  | marshal (n : Nat)
  | handler (n : Nat)
  | wrapped (msg : String) (e : GError)
deriving DecidableEq, Repr

/-- Model of `errors.Wrap(err, msg)` from github.com/pkg/errors: wrapping a
nil error yields nil, wrapping a non-nil error yields a wrapped error. -/
def wrapErr (msg : String) : Option GError → Option GError
  | none => none
  | some e => some (GError.wrapped msg e)

namespace Heart

/-- Two's-complement wrap of an integer into the `int64` range
`[-2^63, 2^63)`; `9223372036854775808 = 2^63` and
`18446744073709551616 = 2^64`. -/
def wrap64 (x : Int) : Int :=
  (x + 9223372036854775808) % 18446744073709551616 - 9223372036854775808

/-- Model of `(*Pacemaker).Dead` from `heart.go`: `echo` and `sent` are the
`int64` UnixNano values loaded from `EchoBeat` and `SentBeat`; the comparison
`sent-echo > int64(p.Heartrate)*2` is 64-bit arithmetic, hence the wraps. -/
def Dead (heartrate sentBeat echoBeat : Int) : Bool :=
  if echoBeat = 0 ∨ sentBeat = 0 then
    false
  else
    decide (wrap64 (sentBeat - echoBeat) > wrap64 (heartrate * 2))

/-- Which branch of the `select` at the bottom of the pacemaker loop fires. -/
inductive IterEnd where
  | stopSignal
  | tick
deriving DecidableEq, Repr

/-- One iteration of the `(*Pacemaker).start` loop, as observed by the loop:
the result of `p.Pace()`, the `time.Now().UnixNano()` stored into `SentBeat`,
the value of `EchoBeat` at the `p.Dead()` check (written concurrently by
`Echo`), and the `select` branch that fires. -/
structure Iter where
  paceErr : Option GError
  sentNow : Int
  echoVal : Int
  sel : IterEnd
deriving DecidableEq, Repr

/-- Model of `(*Pacemaker).start` from `heart.go`, run against a finite script
of iterations.  Per iteration: `Pace()` failing returns that error;
`SentBeat.Set(now)`; a positive `Dead()` check returns `ErrDead`; then the
`select` either receives the stop signal (return nil) or ticks (loop).
`none` means the loop is still running when the script runs out. -/
def startRun (heartrate : Int) : List Iter → Option (Option GError)
  | [] => none
  | it :: rest =>
    match it.paceErr with
    | some e => some (some e)
    | none =>
      if Dead heartrate it.sentNow it.echoVal then some (some GError.errDead)
      else
        match it.sel with
        | IterEnd.stopSignal => some none
        | IterEnd.tick => startRun heartrate rest

/-- The values the `StartAsync` goroutine sends on the death channel: it
executes `p.death <- p.start()` exactly once when (and only when) the loop
returns. -/
def deathSends (heartrate : Int) (script : List Iter) : List (Option GError) :=
  match startRun heartrate script with
  | none => []
  | some r => [r]

/-- Lifecycle state of the stop/death plumbing of one `StartAsync` run:
`stopChan` is whether `p.stop` is non-nil, `loopExited` whether `p.start()`
has returned, `deathDelivered` whether the value sent on the unbuffered
`p.death` channel has been received. -/
structure PMState where
  stopChan : Bool
  loopExited : Bool
  deathDelivered : Bool
deriving DecidableEq, Repr

/-- State right after `StartAsync`: stop channel allocated, loop running. -/
def pmInit : PMState := ⟨true, false, false⟩

/-- Events of the `StartAsync` goroutine, in the order the source performs
them: the loop returns, then `p.death <- p.start()` is received by the other
side, and only then is `p.stop` set to nil. -/
inductive PMStep : PMState → PMState → Prop where
  | exit (c d : Bool) : PMStep ⟨c, false, d⟩ ⟨c, true, d⟩
  | deliver (c : Bool) : PMStep ⟨c, true, false⟩ ⟨c, true, true⟩
  | clear : PMStep ⟨true, true, true⟩ ⟨false, true, true⟩

/-- Reachability along goroutine events. -/
abbrev PMStar : PMState → PMState → Prop := Relation.ReflTransGen PMStep

/-- Model of whether `(*Pacemaker).Stop` completes without blocking in a given
state: it returns immediately when `p.stop` is nil, and otherwise performs an
unbuffered send on `p.stop`, which completes only while the loop is still
alive to receive it. -/
def stopNonBlocking (s : PMState) : Bool :=
  !s.stopChan || !s.loopExited

end Heart

namespace Gateway

/-- Scripted number of reconnect attempts, the package variable `WSRetries`. -/
def WSRetries : Nat := 3

/-- Outcome of one `g.Open()` call as discriminated by `Reconnect`:
`ok` is a nil error, `invalidSession` is the sentinel `ErrInvalidSession`,
`failure e` is any other non-nil error. -/
inductive OpenResult where
  | ok
  | invalidSession
  | failure (e : GError)
deriving DecidableEq, Repr

/-- Whether an `Open` outcome is a non-nil error other than
`ErrInvalidSession` (the condition of the `continue` branch in `Reconnect`). -/
def OpenResult.isFailure : OpenResult → Bool
  | OpenResult.failure _ => true
  | _ => false

/-- The retry loop of `(*Gateway).Reconnect` from `gateway.go`, over the list
of scripted `Open()` outcomes it consumes: on `err != nil && err !=
ErrInvalidSession` it logs and continues, otherwise it returns nil.  Returns
the loop's result together with the number of `Open()` invocations made. -/
def reconnectLoop : List OpenResult → Option GError × Nat
  | [] => (some GError.maxTries, 0)
  | OpenResult.ok :: _ => (none, 1)
  | OpenResult.invalidSession :: _ => (none, 1)
  | OpenResult.failure _ :: rest =>
    let r := reconnectLoop rest
    (r.1, r.2 + 1)

/-- Model of `(*Gateway).Reconnect`: at most `WSRetries` iterations of the
retry loop (the pre-loop `Close` of a live session does not affect the loop
and is omitted). -/
def Reconnect (opens : List OpenResult) : Option GError × Nat :=
  reconnectLoop (opens.take WSRetries)

/-- Model of `(*Gateway).handleWS` after `eventLoop` has returned: given the
event-loop result and, when a reconnect is attempted, the `Reconnect` result,
it yields the value sent on `g.fatalError` (`none` = nothing sent;
`some v` = the value `v` sent, where `v = none` is a nil error).  The source
executes `g.fatalError <- errors.Wrap(g.Reconnect(), "Failed to reconnect")`
unconditionally whenever `eventLoop` returned a non-nil error. -/
def handleWSPublish (eventLoopErr : Option GError) (reconnectErr : Option GError) :
    Option (Option GError) :=
  match eventLoopErr with
  | none => none
  | some _ => some (wrapErr "Failed to reconnect" reconnectErr)

/-- Model of the REST body handed to `httputil.DefaultClient.RequestJSON`:
either a decode error or the `url` field of the JSON response. -/
def RequestJSON (body : Except GError String) (g : String) : String × Option GError :=
  match body with
  | Except.ok u => (u, none)
  | Except.error e => (g, some e)

/-- Model of the package-level `GatewayURL` function from `gateway.go`.  The
local struct's `URL` field starts as the zero value `""`; in the Go `return`
statement the operand `Gateway.URL` is evaluated before the `RequestJSON`
call that decodes the response into the struct, so the returned URL is the
value the field held before the call. -/
def GatewayURL (body : Except GError String) : String × Option GError :=
  let urlField : String := ""
  let ret := urlField
  let res := RequestJSON body urlField
  (ret, res.2)

/-- One item the `eventLoop` `select` can wake up on: a value received from
`g.paceDeath`, or an inbound websocket event `ev` with its `ev.Error`, its
`ev.Data` bytes, and the result `HandleEvent(g, ev.Data)` would produce on
it. -/
inductive InItem where
  | paceDeathRecv (r : Option GError)
  | wsItem (err : Option GError) (data : List Nat) (handleErr : Option GError)
deriving DecidableEq, Repr

/-- Model of `(*Gateway).eventLoop` from `gateway.go`, over the sequence of
items its `select` processes.  Returns the list of errors passed to
`g.ErrorLog` and the loop result (`none` = still looping when the script runs
out; `some r` = the loop returned `r`). -/
def eventLoop : List InItem → List GError × Option (Option GError)
  | [] => ([], none)
  | InItem.paceDeathRecv none :: _ => ([], some none)
  | InItem.paceDeathRecv (some e) :: _ =>
    ([], some (some (GError.wrapped "Pacemaker died, reconnecting" e)))
  | InItem.wsItem (some e) _ _ :: _ => ([], some (some e))
  | InItem.wsItem none data hErr :: rest =>
    if data.length = 0 then ([], some (some GError.emptyFrame))
    else
      let r := eventLoop rest
      match hErr with
      | some e => (GError.wrapped "WS handler error" e :: r.1, r.2)
      | none => r

/-- The gateway control envelope built by `send`: opcode plus the marshalled
payload bytes, if a payload was given. -/
structure OP where
  code : Nat
  data : Option (List Nat)
deriving DecidableEq, Repr

/-- Observable side effects of one `send` call, in order: taking
`g.available.RLock()` and writing a frame to the websocket. -/
inductive SendAction where
  | acquireRead
  | wsSend (b : List Nat)
deriving DecidableEq, Repr

/-- Model of `(*Gateway).send` from `gateway.go`.  `v` is `none` when the Go
argument `v` is nil, and otherwise carries the outcome of
`g.Driver.Marshal(v)`; `marshalOP` is the outcome of marshalling the
envelope; `wsResult` the outcome of `g.WS.Send`.  Returns the error `send`
returns and the list of actions it performed on the gate and the
transport. -/
def send (lock : Bool) (code : Nat) (v : Option (Except GError (List Nat)))
    (marshalOP : OP → Except GError (List Nat)) (wsResult : Option GError) :
    Option GError × List SendAction :=
  let step2 : OP → Option GError × List SendAction := fun op =>
    match marshalOP op with
    | Except.error e => (some (GError.wrapped "Failed to encode payload" e), [])
    | Except.ok b =>
      (wsResult, (if lock then [SendAction.acquireRead] else []) ++ [SendAction.wsSend b])
  match v with
  | none => step2 ⟨code, none⟩
  | some (Except.error e) => (some (GError.wrapped "Failed to encode v" e), [])
  | some (Except.ok b) => step2 ⟨code, some b⟩

/-- Model of the public `(*Gateway).Send`, which is `send` with the gate
taken. -/
def Send (code : Nat) (v : Option (Except GError (List Nat)))
    (marshalOP : OP → Except GError (List Nat)) (wsResult : Option GError) :
    Option GError × List SendAction :=
  send true code v marshalOP wsResult

/-- Outbound frames relevant to the handshake-order claim. -/
inductive Frame where
  | identify
  | resume
  | heartbeat
deriving DecidableEq, Repr

/-- The frames the `start` goroutine itself writes after spawning the
pacemaker: `Identify()` when `g.SessionID` is empty, `Resume()` otherwise.
Modelled from the spec: `Identify` and `Resume` are sends that bypass the
`available` gate (internal handshake sends), so nothing orders them after or
before the pacer's sends. -/
def handshakeSends (sessionID : String) : List Frame :=
  [if sessionID = "" then Frame.identify else Frame.resume]

/-- The first frames of the pacemaker task.  Modelled from the spec: the
pacer loop invokes `pace()` (= `g.Heartbeat`, a gate-bypassing send)
immediately on its first iteration, so its first outbound frame is a
Heartbeat. -/
def pacerFirstSends : List Frame := [Frame.heartbeat]

/-- Interleaving of the two concurrent senders under a schedule: `true` lets
the handshake goroutine emit its next frame, `false` the pacer; an exhausted
schedule flushes the handshake frames and then the pacer frames. -/
def interleave : List Bool → List Frame → List Frame → List Frame
  | [], xs, ys => xs ++ ys
  | true :: sched, x :: xs, ys => x :: interleave sched xs ys
  | true :: sched, [], ys => interleave sched [] ys
  | false :: sched, xs, y :: ys => y :: interleave sched xs ys
  | false :: sched, xs, [] => interleave sched xs []

/-- The outbound frames written to the transport after a successful dial,
under a given schedule of the two sending tasks. -/
def sentAfterDial (sched : List Bool) (sessionID : String) : List Frame :=
  interleave sched (handshakeSends sessionID) pacerFirstSends

/-- The two nilable fields of `Gateway` that `Close` dereferences:
whether `g.Pacemaker` is non-nil and whether `g.waitGroup` is non-nil. -/
structure GwConnState where
  hasPacemaker : Bool
  hasWaitGroup : Bool
deriving DecidableEq, Repr

/-- Scripted outcomes of the fallible steps inside `(*Gateway).start`:
the `AssertEvent` at Hello (error, or the heartbeat interval), the result of
`Identify()`/`Resume()`, the `ev.Error` of the first post-identify frame, and
the result of `HandleEvent` on that frame. -/
structure HandshakeScript where
  hello : Except GError Int
  idResume : Option GError
  firstEv : Except GError Unit
  firstHandle : Option GError
deriving Repr

/-- Model of the private `(*Gateway).start` from `gateway.go`.  Only on a
successful Hello does it allocate `g.waitGroup` and construct and start a
fresh `g.Pacemaker`; each failing step returns the wrapped error of the
source.  Returns the updated nilable-field state and the error. -/
def startInner (s : GwConnState) (sessionID : String) (sc : HandshakeScript) :
    GwConnState × Option GError :=
  match sc.hello with
  | Except.error e => (s, some (GError.wrapped "Error at Hello" e))
  | Except.ok _ =>
    let s1 : GwConnState := ⟨true, true⟩
    match sc.idResume with
    | some e =>
      (s1, some (GError.wrapped
        (if sessionID = "" then "Failed to identify" else "Failed to resume") e))
    | none =>
      match sc.firstEv with
      | Except.error e => (s1, some (GError.wrapped "First error" e))
      | Except.ok _ =>
        match sc.firstHandle with
        | some e => (s1, some (GError.wrapped "WS handler error on first event" e))
        | none => (s1, none)

/-- Result of running `(*Gateway).Close`. -/
inductive CloseOutcome where
  | panic
  | closed
deriving DecidableEq, Repr

/-- Model of `(*Gateway).Close` from `gateway.go`.  It runs
`g.Pacemaker.Stop()` and then `g.waitGroup.Wait()` with no nil guards: in Go,
`Stop` on a nil `*Pacemaker` dereferences `p.stop` of a nil receiver and
`Wait` on a nil `*sync.WaitGroup` dereferences its state word, so either nil
field makes `Close` panic with a nil-pointer dereference. -/
def CloseModel (s : GwConnState) : CloseOutcome :=
  if s.hasPacemaker = false then CloseOutcome.panic
  else if s.hasWaitGroup = false then CloseOutcome.panic
  else CloseOutcome.closed

/-- Result of `(*Gateway).Start`: a runtime panic, or a returned error
value. -/
inductive StartOutcome where
  | panic
  | ret (e : Option GError)
deriving DecidableEq, Repr

/-- Model of the public `(*Gateway).Start` from `gateway.go`: run the
handshake; on a non-nil error call `Close` (ignoring its error) and return
the original error — unless `Close` panics, in which case `Start` panics. -/
def StartModel (s : GwConnState) (sessionID : String) (sc : HandshakeScript) :
    StartOutcome :=
  let r := startInner s sessionID sc
  match r.2 with
  | none => StartOutcome.ret none
  | some e =>
    match CloseModel r.1 with
    | CloseOutcome.panic => StartOutcome.panic
    | CloseOutcome.closed => StartOutcome.ret (some e)

end Gateway

namespace Heart

theorem wrap64_eq_self (x : Int) (h0 : -9223372036854775808 ≤ x)
    (h1 : x < 9223372036854775808) : wrap64 x = x := by
  unfold wrap64
  rw [Int.emod_eq_of_lt (by omega) (by omega)]
  omega

/-- C1: for every pair of recorded timestamps (nonnegative `int64` UnixNano
values) and every nonnegative heartrate whose doubling fits in `int64`,
`Pacemaker.Dead()` returns true iff `sent > 0`, `echo > 0` and
`sent − echo > 2·heartrate`; in particular it returns false whenever either
timestamp is zero. -/
theorem C1_dead_iff (heartrate sentBeat echoBeat : Int)
    (hs0 : 0 ≤ sentBeat) (hs1 : sentBeat < 9223372036854775808)
    (he0 : 0 ≤ echoBeat) (he1 : echoBeat < 9223372036854775808)
    (hr0 : 0 ≤ heartrate) (hr1 : heartrate * 2 < 9223372036854775808) :
    Dead heartrate sentBeat echoBeat = true ↔
      0 < sentBeat ∧ 0 < echoBeat ∧ sentBeat - echoBeat > 2 * heartrate := by
  unfold Dead
  by_cases h : echoBeat = 0 ∨ sentBeat = 0
  · rw [if_pos h]
    simp only [Bool.false_eq_true, false_iff]
    intro hc
    rcases h with h | h <;> omega
  · rw [if_neg h]
    push_neg at h
    obtain ⟨he, hs⟩ := h
    simp only [decide_eq_true_eq]
    rw [wrap64_eq_self (sentBeat - echoBeat) (by omega) (by omega),
      wrap64_eq_self (heartrate * 2) (by omega) (by omega)]
    omega

/-- Witness for C1 at `heartrate = 2`, `sent = 10`, `echo = 1`. -/
theorem C1_dead_iff_witness : Dead 2 10 1 = true :=
  (C1_dead_iff 2 10 1 (by decide) (by decide) (by decide) (by decide)
    (by decide) (by decide)).mpr (by decide)

theorem startRun_cases (heartrate : Int) :
    ∀ (script : List Iter) (r : Option GError),
      startRun heartrate script = some r →
      r = none ∨ r = some GError.errDead ∨ ∃ it ∈ script, it.paceErr = r := by
  intro script
  induction script with
  | nil => intro r h; simp [startRun] at h
  | cons it rest ih =>
    intro r h
    rw [startRun] at h
    rcases hpe : it.paceErr with _ | e
    · rw [hpe] at h
      by_cases hd : Dead heartrate it.sentNow it.echoVal = true
      · simp only [hd, if_true, Option.some.injEq] at h
        right; left
        exact h.symm
      · simp only [Bool.not_eq_true] at hd
        simp only [hd, Bool.false_eq_true, if_false] at h
        rcases hsel : it.sel with _ | _
        · rw [hsel] at h
          simp only [Option.some.injEq] at h
          left; exact h.symm
        · rw [hsel] at h
          rcases ih r h with h1 | h2 | ⟨it2, hmem, hpe2⟩
          · left; exact h1
          · right; left; exact h2
          · right; right; exact ⟨it2, List.mem_cons_of_mem it hmem, hpe2⟩
    · rw [hpe] at h
      simp only [Option.some.injEq] at h
      right; right
      exact ⟨it, List.mem_cons_self it rest, by rw [hpe, h]⟩

/-- C6: for every heartrate and every script of loop iterations on which the
pacemaker loop terminates with result `r`, exactly one value — `[r]` — is sent
on the death channel across the lifetime of the `StartAsync` run, and that
value is nil (clean stop), `ErrDead` (liveness failure), or the error returned
by `Pace` in some iteration. -/
theorem C6_one_death (heartrate : Int) (script : List Iter) (r : Option GError)
    (h : startRun heartrate script = some r) :
    deathSends heartrate script = [r] ∧ (deathSends heartrate script).length = 1 ∧
      (r = none ∨ r = some GError.errDead ∨ ∃ it ∈ script, it.paceErr = r) := by
  refine ⟨?_, ?_, startRun_cases heartrate script r h⟩
  · unfold deathSends; rw [h]
  · unfold deathSends; rw [h]; rfl

/-- Witness for C6 on the one-iteration script that receives the stop
signal: the single value sent on the death channel is nil. -/
theorem C6_one_death_witness :
    deathSends 2 [⟨none, 5, 5, IterEnd.stopSignal⟩] = [none] :=
  (C6_one_death 2 [⟨none, 5, 5, IterEnd.stopSignal⟩] none (by decide)).1

/-- C4 counterexample: the state in which the pacemaker loop has returned but
the death value has not yet been received (and `p.stop` is therefore still
non-nil) is reachable, the loop has terminated there, and a `Stop()` call in
that state blocks: the claim that every post-termination `Stop()` completes
without blocking is false at that state. -/
theorem C4_counterexample :
    PMStar pmInit ⟨true, true, false⟩ ∧
      (PMState.mk true true false).loopExited = true ∧
      stopNonBlocking ⟨true, true, false⟩ = false :=
  ⟨Relation.ReflTransGen.single (PMStep.exit true false), rfl, rfl⟩

theorem pmStep_stopChan {s t : PMState} (h : PMStep s t) :
    s.stopChan = false → t.stopChan = false := by
  cases h <;> simp_all

/-- C4 amended: after the `StartAsync` goroutine has cleared the stop channel
(which it does only after the death value has been delivered), every
subsequently reachable state lets `Stop()` complete without blocking; the
cleared state is reachable from the started pacemaker.  Between loop exit and
that clearing, a `Stop()` call blocks (see the counterexample). -/
theorem C4_stop_nonblocking_amended :
    PMStar pmInit ⟨false, true, true⟩ ∧
      ∀ s t : PMState, s.stopChan = false → PMStar s t →
        stopNonBlocking t = true := by
  constructor
  · exact Relation.ReflTransGen.trans
      (Relation.ReflTransGen.single (PMStep.exit true false))
      (Relation.ReflTransGen.trans
        (Relation.ReflTransGen.single (PMStep.deliver true))
        (Relation.ReflTransGen.single PMStep.clear))
  · intro s t hs hstar
    have hchan : t.stopChan = false := by
      induction hstar with
      | refl => exact hs
      | tail _ hstep ih => exact pmStep_stopChan hstep ih
    unfold stopNonBlocking
    rw [hchan]
    rfl

/-- Witness for C4 amended at the fully terminated state. -/
theorem C4_stop_nonblocking_amended_witness :
    stopNonBlocking ⟨false, true, true⟩ = true :=
  C4_stop_nonblocking_amended.2 ⟨false, true, true⟩ ⟨false, true, true⟩ rfl
    Relation.ReflTransGen.refl

end Heart

namespace Gateway

/-- C2 counterexample: on the scripted outcome sequence in which every
`Open()` attempt returns `ErrInvalidSession` — so no attempt succeeds and
`ok` never occurs — `Reconnect` returns nil after a single `Open()` call
instead of `ErrMaxTries`; the claim that `ErrInvalidSession` does not abort
the retry loop and does not count as success is false at this input. -/
theorem C2_counterexample :
    Reconnect [OpenResult.invalidSession, OpenResult.invalidSession,
        OpenResult.invalidSession] = (none, 1) ∧
      OpenResult.ok ∉ [OpenResult.invalidSession, OpenResult.invalidSession,
        OpenResult.invalidSession] := by
  decide

theorem reconnectLoop_spec (opens : List OpenResult) :
    (reconnectLoop opens).2 ≤ opens.length ∧
      ((reconnectLoop opens).1 = some GError.maxTries ↔
        ∀ o ∈ opens, o.isFailure = true) := by
  induction opens with
  | nil => simp [reconnectLoop]
  | cons o rest ih =>
    cases o with
    | ok =>
      simp [reconnectLoop, OpenResult.isFailure]
    | invalidSession =>
      simp [reconnectLoop, OpenResult.isFailure]
    | failure e =>
      have hstep : reconnectLoop (OpenResult.failure e :: rest) =
          ((reconnectLoop rest).1, (reconnectLoop rest).2 + 1) := rfl
      rw [hstep]
      refine ⟨Nat.succ_le_succ ih.1, ?_⟩
      rw [ih.2]
      simp [List.forall_mem_cons, OpenResult.isFailure]

/-- C2 amended: for every scripted outcome sequence supplying at least
`WSRetries` outcomes, `Reconnect()` invokes `open()` at most `WSRetries`
times, and it returns `ErrMaxTries` iff each of the first `WSRetries`
outcomes is a non-nil error other than `ErrInvalidSession`.  An attempt
returning `ErrInvalidSession` therefore terminates the loop and is treated
exactly like a success: `Reconnect` returns nil. -/
theorem C2_reconnect_amended (opens : List OpenResult)
    (_hlen : WSRetries ≤ opens.length) :
    (Reconnect opens).2 ≤ WSRetries ∧
      ((Reconnect opens).1 = some GError.maxTries ↔
        ∀ o ∈ opens.take WSRetries, o.isFailure = true) := by
  have h := reconnectLoop_spec (opens.take WSRetries)
  exact ⟨h.1.trans (List.length_take_le WSRetries opens), h.2⟩

/-- Witness for C2 amended on three plain failures: all `WSRetries` attempts
are consumed and `ErrMaxTries` comes back. -/
theorem C2_reconnect_amended_witness :
    (Reconnect [OpenResult.failure (GError.transport 0),
        OpenResult.failure (GError.transport 1),
        OpenResult.failure (GError.transport 2)]).1 = some GError.maxTries :=
  (C2_reconnect_amended [OpenResult.failure (GError.transport 0),
      OpenResult.failure (GError.transport 1),
      OpenResult.failure (GError.transport 2)] (by decide)).2.mpr (by decide)

/-- C3: evaluation of `handleWS` at the failing input — the event loop
returned a non-nil error (a wrapped pacemaker death) and the subsequent
`Reconnect()` succeeded.  The source still executes `g.fatalError <-
errors.Wrap(g.Reconnect(), "Failed to reconnect")`, and `errors.Wrap` of a
nil error is nil, so a nil value is published on the fatal-error slot and
`Wait` returns nil even though the gateway has successfully reconnected —
contradicting the claim (and the source's own doc comments on `FatalError`
and `Wait`). -/
theorem C3_publishes_nil_on_successful_reconnect :
    handleWSPublish
        (some (GError.wrapped "Pacemaker died, reconnecting" GError.errDead))
        none = some none :=
  rfl

/-- C5: for every REST response (success with any URL, or any error),
`GatewayURL` returns the empty string as the URL, because the struct's `URL`
field is read before `RequestJSON` decodes the response into it. -/
theorem C5_gatewayURL_empty (body : Except GError String) :
    (GatewayURL body).1 = "" := rfl

/-- C7 counterexample: under the schedule that runs the pacemaker task first
— possible because the pacemaker is started before Identify/Resume is sent
and its loop paces immediately through the gate-bypassing send — the first
outbound frame after the dial is a Heartbeat, falsifying the claim that the
first frame is never a Heartbeat. -/
theorem C7_counterexample :
    (sentAfterDial [false] "").head? = some Frame.heartbeat := by
  decide

/-- C7 amended: the handshake task's own first frame is Identify when
`session_id` is empty and Resume otherwise, so under every schedule that lets
the handshake task emit first, the first outbound frame after a successful
dial is Identify or Resume accordingly; but the pacemaker task runs
concurrently from before the Identify/Resume send, so a schedule exists on
which the first frame is a Heartbeat. -/
theorem C7_first_frame_amended (sessionID : String) (sched : List Bool)
    (h : sched.head? = some true) :
    (sentAfterDial sched sessionID).head? =
      some (if sessionID = "" then Frame.identify else Frame.resume) := by
  cases sched with
  | nil => simp at h
  | cons b rest =>
    simp only [List.head?_cons, Option.some.injEq] at h
    subst h
    rfl

/-- Witness for C7 amended with an empty session id and the handshake task
scheduled first. -/
theorem C7_first_frame_amended_witness :
    (sentAfterDial [true] "").head? = some Frame.identify := by
  have h := C7_first_frame_amended "" [true] rfl
  simpa using h

/-- C8: evaluation of `Start` at the two kinds of failing input.  When the
first inbound frame is not a valid Hello on a gateway whose pacemaker and
wait-group have never been created, `Start` panics inside `Close`
(`g.Pacemaker.Stop()` and `g.waitGroup.Wait()` dereference nil) instead of
returning the handshake error; when the failure happens after the pacemaker
and wait-group exist (here: the Identify send fails), `Start` does run
`Close` and returns the original wrapped error as the claim states. -/
theorem C8_hello_failure_panics :
    StartModel ⟨false, false⟩ ""
        ⟨Except.error (GError.transport 0), none, Except.ok (), none⟩ =
      StartOutcome.panic ∧
      StartModel ⟨false, false⟩ ""
          ⟨Except.ok 41250000000, some (GError.transport 1), Except.ok (), none⟩ =
        StartOutcome.ret (some (GError.wrapped "Failed to identify"
          (GError.transport 1))) :=
  ⟨rfl, rfl⟩

/-- C9: for every inbound item the event loop processes — the remaining
script being arbitrary — a transport error (`ev.Error` non-nil) makes the
loop return exactly that error; an empty payload makes it return the
synthetic empty-frame error regardless of the handler; and a handler error on
a nonempty payload is appended to the error sink while the loop continues on
the rest of the script. -/
theorem C9_eventLoop_items :
    (∀ (e : GError) (data : List Nat) (hErr : Option GError) (rest : List InItem),
        eventLoop (InItem.wsItem (some e) data hErr :: rest) = ([], some (some e))) ∧
      (∀ (hErr : Option GError) (rest : List InItem),
        eventLoop (InItem.wsItem none [] hErr :: rest) =
          ([], some (some GError.emptyFrame))) ∧
      (∀ (data : List Nat) (e : GError) (rest : List InItem), data ≠ [] →
        eventLoop (InItem.wsItem none data (some e) :: rest) =
          (GError.wrapped "WS handler error" e :: (eventLoop rest).1,
            (eventLoop rest).2)) := by
  refine ⟨fun e data hErr rest => rfl, fun hErr rest => rfl,
    fun data e rest h => ?_⟩
  have hlen : ¬data.length = 0 := by
    simpa [List.length_eq_zero] using h
  simp [eventLoop, hlen]

/-- Witness for C9 on a one-item script whose handler fails: the error is
logged and the loop is still running. -/
theorem C9_eventLoop_items_witness :
    eventLoop [InItem.wsItem none [1] (some (GError.transport 0))] =
      ([GError.wrapped "WS handler error" (GError.transport 0)], none) := by
  have h := C9_eventLoop_items.2.2 [1] (GError.transport 0) [] (by decide)
  simpa using h

/-- C10: for every opcode and marshalling behaviour, if marshalling the
payload fails then `send` returns that error (wrapped as in the source)
having performed no action at all — the `available` gate is never acquired
and nothing is written to the websocket — and likewise if marshalling the
envelope fails. -/
theorem C10_send_marshal (lock : Bool) (code : Nat)
    (marshalOP : OP → Except GError (List Nat)) (wsResult : Option GError) :
    (∀ (e : GError),
        send lock code (some (Except.error e)) marshalOP wsResult =
          (some (GError.wrapped "Failed to encode v" e), [])) ∧
      (∀ (v : Option (List Nat)) (e : GError),
        marshalOP ⟨code, v⟩ = Except.error e →
        send lock code (v.map Except.ok) marshalOP wsResult =
          (some (GError.wrapped "Failed to encode payload" e), [])) := by
  refine ⟨fun e => rfl, fun v e h => ?_⟩
  cases v with
  | none => simp [send, h]
  | some b => simp [send, h]

/-- Witness for C10 with an envelope marshaller that always fails. -/
theorem C10_send_marshal_witness :
    send true 1 none (fun _ => Except.error (GError.marshal 7)) none =
      (some (GError.wrapped "Failed to encode payload" (GError.marshal 7)), []) := by
  have h := (C10_send_marshal true 1
    (fun _ => Except.error (GError.marshal 7)) none).2 none (GError.marshal 7) rfl
  simpa using h

end Gateway

end Arikawa
